import Mathlib

/-
Shallow embedding of the TorBox provider adapter (src/addon/src/moch/torbox.js):
the availability checker, torrent registrar, file-index mapper, download-link
requester, the error classifier and the resolve orchestrator.

Modelling conventions:
- A thrown JS value is an element of JsError; code that can throw returns
  an Except JsError value, and a .catch handler becomes Except.mapError.
- A JSON object used as a string-keyed mapping is a List (String × _)
  association list whose first binding for a key wins; Object.assign(dst, src)
  therefore prepends the overriding object src (objAssign below).
- The remote service, already bound to one credential (apiKey) and one client
  ip, is a record of one response per endpoint; the credential, the request
  urls and the timeouts only shape the HTTP request, not the behaviour
  embedded here.
- External collaborators of the adapter that live outside the sampled sources
  (lib/cache.js, lib/extension.js, lib/magnetHelper.js, moch/mochHelper.js,
  moch/static.js) are modelled from the spec; each such definition says so in
  its doc comment.
-/

deriving instance DecidableEq for Except

namespace Torbox

/-- Lowercasing of a string, written over its character list so that concrete
instances evaluate inside proofs; agrees with toLowerCase on the ASCII names
this adapter handles. -/
def strToLower (s : String) : String :=
  String.mk (s.data.map Char.toLower)

/-- Suffix test on strings, written over their character lists so that
concrete instances evaluate inside proofs. -/
def strEndsWith (s post : String) : Bool :=
  post.data.isSuffixOf s.data

/-- A thrown JS value as the adapter distinguishes them: the two sentinel
errors of mochHelper, a plain Error with its message, or an axios transport
error carrying the optional HTTP response status. -/
inductive JsError where
  | badToken
  | accessDenied
  | jsErr (msg : String)
  | httpError (status : Option Nat)
deriving DecidableEq, Repr

/-- The optional HTTP response status of a thrown value, as read by the
classifier from err.response.status. -/
def statusOf : JsError → Option Nat
  | JsError.httpError s => s
  | _ => none

/-- Embedding of the error classifier of torbox.js: status 401 or 403 raises
BadToken, status 402 raises AccessDenied, anything else is rethrown unchanged. -/
def rethrowAuth (err : JsError) : JsError :=
  let status := statusOf err
  if status = some 401 ∨ status = some 403 then JsError.badToken
  else if status = some 402 then JsError.accessDenied
  else err

/-- One file of a remote torrent record: an optional remote-assigned id and a
name. -/
structure RemoteFile where
  id : Option Nat
  name : String
deriving DecidableEq, Repr

/-- One value of the checkcached response object and of the local availability
cache: a file listing, possibly empty. -/
structure AvailabilityEntry where
  files : List RemoteFile
deriving DecidableEq, Repr

/-- A remote torrent record as returned by the mylist endpoint. -/
structure RemoteTorrent where
  id : Nat
  hash : String
  name : String
  status : String
  files : List RemoteFile
deriving DecidableEq, Repr

/-- Body of a successful createtorrent response, reduced to the only path the
adapter reads: created.data.data.id, absent when the response carries no id. -/
structure CreateResp where
  id : Option Nat
deriving DecidableEq, Repr

/-- Body of a successful requestdl response, reduced to the two fields the
adapter reads: data.data.download and data.data.url. -/
structure DlResp where
  download : Option String
  url : Option String
deriving DecidableEq, Repr

/-- JS truthiness of an optional number: present and nonzero. -/
def jsTruthyNat : Option Nat → Bool
  | some n => n != 0
  | none => false

/-- JS truthiness of an optional string: present and nonempty. -/
def jsTruthyStr : Option String → Bool
  | some s => s != ""
  | none => false

/-- Lookup in a string-keyed object modelled as an association list; the first
binding for a key wins. -/
def objLookup (m : List (String × α)) (k : String) : Option α :=
  match m with
  | [] => none
  | (k2, v) :: rest => if k2 = k then some v else objLookup rest k

/-- Shallow model of Object.assign(dst, src): the bindings of src override
those of dst, so under first-binding-wins lookup the overriding object is
prepended. -/
def objAssign (dst src : List (String × AvailabilityEntry)) :
    List (String × AvailabilityEntry) :=
  src ++ dst

/-- Modelled from the spec: the video-name predicate of lib/extension.js (not
under the sampled sources); a filename is a video iff it ends with a known
video file extension. -/
def isVideo (name : String) : Bool :=
  [".mkv", ".mp4", ".avi", ".webm"].any (fun ext => strEndsWith name ext)

/-- Modelled from the spec: magnet-link construction from an infohash
(lib/magnetHelper.js, not under the sampled sources). -/
def getMagnetLink (infohash : String) : String :=
  "magnet:?xt=urn:btih:" ++ infohash

/-- Modelled from the spec: the array-chunking helper of moch/mochHelper.js
(not under the sampled sources); splits items into consecutive batches of at
most size elements, in order. -/
def chunkArray (items : List α) (size : Nat) : List (List α) :=
  (List.range ((items.length + size - 1) / size)).map
    (fun i => (items.drop (i * size)).take size)

/-- Modelled from the spec: the local cache read of lib/cache.js (not under
the sampled sources); get(hashes) returns the partial mapping of the queried
hashes that are present in the store. -/
def getCachedAvailabilityResults (store : List (String × AvailabilityEntry))
    (hashes : List String) : List (String × AvailabilityEntry) :=
  hashes.filterMap (fun h => (objLookup store h).map (fun e => (h, e)))

/-- Modelled from the spec: the merge-and-store of lib/cache.js (not under the
sampled sources); new entries augment, do not replace, existing entries, and
the full merged mapping is returned. Under first-binding-wins lookup, keeping
the store in front preserves every existing entry. -/
def cacheAvailabilityResults (store acc : List (String × AvailabilityEntry)) :
    List (String × AvailabilityEntry) :=
  store ++ acc

/-- Modelled from the spec: the caller-facing static failure code used for
BadToken and AccessDenied (moch/static.js, not under the sampled sources). -/
def FAILED_ACCESS : String := "FAILED_ACCESS"

/-- Modelled from the spec: the caller-facing static failure code used for
every other failure (moch/static.js, not under the sampled sources). -/
def FAILED_UNEXPECTED : String := "FAILED_UNEXPECTED"

/-- The missing list computed by the checker: the queried hashes with no entry
in the partial mapping read from the cache. -/
def missingOf (store : List (String × AvailabilityEntry))
    (hashes : List String) : List String :=
  hashes.filter (fun h => (objLookup (getCachedAvailabilityResults store hashes) h).isNone)

/-- The sequential batch loop of the checker: issues the batches in order
against the checkcached endpoint, classifying each failure and merging each
response body into the accumulator; the first failing batch aborts the loop.
Returns the loop result together with the trace of batches actually issued. -/
def checkCachedLoop
    (remote : List String → Except JsError (Option (List (String × AvailabilityEntry))))
    (chunks : List (List String)) (map : List (String × AvailabilityEntry)) :
    Except JsError (List (String × AvailabilityEntry)) × List (List String) :=
  match chunks with
  | [] => (Except.ok map, [])
  | chunk :: rest =>
    match (remote chunk).mapError rethrowAuth with
    | Except.error e => (Except.error e, [chunk])
    | Except.ok data =>
      ((checkCachedLoop remote rest (objAssign map (data.getD []))).1,
       chunk :: (checkCachedLoop remote rest (objAssign map (data.getD []))).2)

/-- Embedding of the availability checker of torbox.js: read the hashes from
the local cache, return the cached partial mapping unchanged when nothing is
missing, otherwise batch the missing hashes, query the remote endpoint batch
by batch, and write the accumulator through the cache. Besides the result it
returns the trace of batches issued to the remote endpoint. -/
def checkCached
    (remote : List String → Except JsError (Option (List (String × AvailabilityEntry))))
    (store : List (String × AvailabilityEntry))
    (hashes : List String) (maxChunkSize : Nat := 100) :
    Except JsError (List (String × AvailabilityEntry)) × List (List String) :=
  let cached := getCachedAvailabilityResults store hashes
  let missing := missingOf store hashes
  if missing.isEmpty then (Except.ok cached, [])
  else
    match checkCachedLoop remote (chunkArray missing maxChunkSize) [] with
    | (Except.ok map, trace) => (Except.ok (cacheAvailabilityResults store map), trace)
    | (Except.error e, trace) => (Except.error e, trace)

/-- One fixed behaviour of the credential-bound remote service as observed by
a single resolve call: the outcome of each endpoint, reduced to the response
data the adapter reads. -/
structure Remote where
  createtorrent : String → Except JsError CreateResp
  mylistAll : Except JsError (Option (List RemoteTorrent))
  mylistOne : Nat → Except JsError (Option RemoteTorrent)
  requestdl : Nat → Nat → Except JsError DlResp

/-- The empty record the source falls back to when a single-torrent lookup
yields no data (the final alternative in myList with an id). -/
def emptyTorrent : RemoteTorrent :=
  { id := 0, hash := "", name := "", status := "", files := [] }

/-- Embedding of myList without an id: classify failures, default a missing
data field to the empty list. -/
def myListAll (remote : Remote) : Except JsError (List RemoteTorrent) :=
  (remote.mylistAll.mapError rethrowAuth).map (fun d => d.getD [])

/-- Embedding of myList with an id: classify failures, normalize a missing
record to the empty object. -/
def myListOne (remote : Remote) (id : Nat) : Except JsError RemoteTorrent :=
  ((remote.mylistOne id).mapError rethrowAuth).map (fun d => d.getD emptyTorrent)

/-- The list-reconciliation fallback of the registrar: locate the torrent
whose hash matches the requested infohash case-insensitively in the account
list; fail with the not-found Error when no record matches. -/
def createFallback (remote : Remote) (infohash : String) : Except JsError Nat :=
  match myListAll remote with
  | Except.error e => Except.error e
  | Except.ok list =>
    match list.find? (fun t => strToLower t.hash == strToLower infohash) with
    | some found => Except.ok found.id
    | none => Except.error (JsError.jsErr "Torrent not found/created")

/-- Embedding of the torrent registrar of torbox.js: attempt the create call,
swallowing a 400 or 409 failure and classifying any other failure; when the
response carries a truthy id return it directly, otherwise reconcile against
the account torrent list. -/
def createOrFindTorrent (remote : Remote) (infohash : String) (magnet : String) :
    Except JsError Nat :=
  match remote.createtorrent magnet with
  | Except.error e =>
    if statusOf e = some 400 ∨ statusOf e = some 409 then
      createFallback remote infohash
    else
      Except.error (rethrowAuth e)
  | Except.ok created =>
    match created.id with
    | some i => if i != 0 then Except.ok i else createFallback remote infohash
    | none => createFallback remote infohash

/-- Embedding of the file-index mapper of torbox.js: fetch the single torrent
record, filter its files to video names preserving order, select the element
at the index, fail with the out-of-range Error when absent, and fall back to
the 1-based position when the selected file has no id. -/
def getFileIdForIndex (remote : Remote) (torrentId : Nat) (index : Nat) :
    Except JsError Nat :=
  match myListOne remote torrentId with
  | Except.error e => Except.error e
  | Except.ok torrent =>
    let vids := torrent.files.filter (fun f => isVideo f.name)
    match vids[index]? with
    | none => Except.error (JsError.jsErr "File index out of range")
    | some file =>
      match file.id with
      | some fid => Except.ok fid
      | none => Except.ok (index + 1)

/-- Embedding of the download-link requester of torbox.js: issue the requestdl
call (the source wraps this call in no classifying catch, so its failure
propagates unchanged), take the download field when truthy, else the url
field, and fail with the no-download-link Error when the chosen link is not
truthy. -/
def requestDownloadLink (remote : Remote) (torrentId : Nat) (fileId : Nat) :
    Except JsError String :=
  match remote.requestdl torrentId fileId with
  | Except.error e => Except.error e
  | Except.ok data =>
    let link := if jsTruthyStr data.download then data.download else data.url
    if jsTruthyStr link then Except.ok (link.getD "")
    else Except.error (JsError.jsErr "No download link")

/-- The three-stage pipeline body of resolve, before the outcome mapping of
its catch block: registrar, then mapper, then requester. -/
def resolveSteps (remote : Remote) (infohash : String) (fileIndex : Nat) :
    Except JsError String :=
  match createOrFindTorrent remote infohash (getMagnetLink infohash) with
  | Except.error e => Except.error e
  | Except.ok torrentId =>
    match getFileIdForIndex remote torrentId fileIndex with
    | Except.error e => Except.error e
    | Except.ok fileId => requestDownloadLink remote torrentId fileId

/-- Embedding of resolve: run the pipeline and map any failure to one of the
two static failure codes, BadToken and AccessDenied to FAILED_ACCESS and
every other failure to FAILED_UNEXPECTED. Total by construction: it always
returns a string, never a thrown value. -/
def resolve (remote : Remote) (infohash : String) (fileIndex : Nat) : String :=
  match resolveSteps remote infohash fileIndex with
  | Except.ok url => url
  | Except.error JsError.badToken => FAILED_ACCESS
  | Except.error JsError.accessDenied => FAILED_ACCESS
  | Except.error _ => FAILED_UNEXPECTED

/-- The create call yielded no usable identifier: either a tolerated
duplicate-class failure (status 400 or 409) or a success whose body carries no
truthy id. -/
def createGaveNoId (remote : Remote) (magnet : String) : Prop :=
  (∃ e, remote.createtorrent magnet = Except.error e ∧
    (statusOf e = some 400 ∨ statusOf e = some 409)) ∨
  (∃ r, remote.createtorrent magnet = Except.ok r ∧ jsTruthyNat r.id = false)

/-- The accumulator built by a fully successful batch loop over the given
batches when the endpoint answers batch c with body f c. -/
def accOf (f : List String → Option (List (String × AvailabilityEntry)))
    (chunks : List (List String)) : List (String × AvailabilityEntry) :=
  chunks.foldl (fun m c => objAssign m ((f c).getD [])) []

/-- A remote torrent record with a single video file carrying the remote file
id 7; used by concrete scenarios. -/
def tor1 : RemoteTorrent :=
  { id := 42, hash := "abc", name := "t", status := "finished",
    files := [{ id := some 7, name := "movie.mkv" }] }

/-- Remote behaviour where registration and listing succeed but the requestdl
endpoint answers with HTTP status 401. -/
def remote401dl : Remote :=
  { createtorrent := fun _ => Except.ok { id := some 42 },
    mylistAll := Except.ok (some []),
    mylistOne := fun _ => Except.ok (some tor1),
    requestdl := fun _ _ => Except.error (JsError.httpError (some 401)) }

/-- The remote torrent of end-to-end scenario B: one video file at index 0
with no explicit remote id. -/
def sbTorrent : RemoteTorrent :=
  { id := 42, hash := "abc", name := "t", status := "finished",
    files := [{ id := none, name := "movie.mkv" }] }

/-- Remote behaviour of end-to-end scenario B: creation succeeds with id 42,
the record has one id-less video, and the download endpoint yields the link
only when queried with torrent id 42 and file id 1, so that obtaining the link
proves which file id the pipeline requested. -/
def remoteB : Remote :=
  { createtorrent := fun _ => Except.ok { id := some 42 },
    mylistAll := Except.ok (some []),
    mylistOne := fun tid => if tid = 42 then Except.ok (some sbTorrent) else Except.ok none,
    requestdl := fun tid fid =>
      if tid = 42 ∧ fid = 1 then Except.ok { download := some "https://cdn/x", url := none }
      else Except.ok { download := none, url := none } }

/-- Remote behaviour whose create endpoint answers with HTTP status 401. -/
def rC1a : Remote :=
  { createtorrent := fun _ => Except.error (JsError.httpError (some 401)),
    mylistAll := Except.ok (some []),
    mylistOne := fun _ => Except.ok none,
    requestdl := fun _ _ => Except.ok { download := none, url := none } }

/-- Remote behaviour whose create endpoint answers 409 and whose list endpoint
answers with HTTP status 401. -/
def rC1b : Remote :=
  { createtorrent := fun _ => Except.error (JsError.httpError (some 409)),
    mylistAll := Except.error (JsError.httpError (some 401)),
    mylistOne := fun _ => Except.ok none,
    requestdl := fun _ _ => Except.ok { download := none, url := none } }

/-- Remote behaviour where creation succeeds with id 42 and the single-record
list endpoint answers with HTTP status 401. -/
def rC1c : Remote :=
  { createtorrent := fun _ => Except.ok { id := some 42 },
    mylistAll := Except.ok (some []),
    mylistOne := fun _ => Except.error (JsError.httpError (some 401)),
    requestdl := fun _ _ => Except.ok { download := none, url := none } }

/-- Remote behaviour of the first registrar call of scenario C: creation
succeeds with id 42. -/
def r3a : Remote :=
  { createtorrent := fun _ => Except.ok { id := some 42 },
    mylistAll := Except.ok (some []),
    mylistOne := fun _ => Except.ok none,
    requestdl := fun _ _ => Except.ok { download := none, url := none } }

/-- The listed record of the repeat registrar call: same torrent, hash in
upper case to exercise the case-insensitive match. -/
def t42ABC : RemoteTorrent :=
  { id := 42, hash := "ABC", name := "t", status := "finished",
    files := [{ id := some 7, name := "movie.mkv" }] }

/-- Remote behaviour of the repeat registrar call of scenario C: creation
answers 409 (already exists) and the account list carries the torrent. -/
def r3b : Remote :=
  { createtorrent := fun _ => Except.error (JsError.httpError (some 409)),
    mylistAll := Except.ok (some [t42ABC]),
    mylistOne := fun _ => Except.ok none,
    requestdl := fun _ _ => Except.ok { download := none, url := none } }

/-- Remote behaviour whose download endpoint carries only the fallback url
field for file id 1 and neither field otherwise. -/
def r9 : Remote :=
  { createtorrent := fun _ => Except.ok { id := some 42 },
    mylistAll := Except.ok (some []),
    mylistOne := fun _ => Except.ok none,
    requestdl := fun _ fid =>
      if fid = 1 then Except.ok { download := none, url := some "https://cdn/u" }
      else Except.ok { download := none, url := none } }

/-- A local cache store holding one hash with a non-empty file listing. -/
def store6 : List (String × AvailabilityEntry) :=
  [("a", { files := [{ id := none, name := "movie.mkv" }] })]

/-- Lookup distributes over concatenation: the front object wins. -/
theorem objLookup_append (l1 l2 : List (String × α)) (k : String) :
    objLookup (l1 ++ l2) k =
      (match objLookup l1 k with
       | some v => some v
       | none => objLookup l2 k) := by
  induction l1 with
  | nil => simp [objLookup]
  | cons p rest ih =>
    obtain ⟨k2, v⟩ := p
    by_cases hk : k2 = k
    · simp [objLookup, hk]
    · simp [objLookup, hk, ih]

/-- A key is bound in a concatenation iff it is bound in one of the parts. -/
theorem objLookup_append_isSome (l1 l2 : List (String × α)) (k : String) :
    (objLookup (l1 ++ l2) k).isSome = true ↔
      ((objLookup l1 k).isSome = true ∨ (objLookup l2 k).isSome = true) := by
  rw [objLookup_append]
  cases objLookup l1 k <;> simp

/-- The partial mapping read from the cache binds a queried hash to exactly
its store entry and binds nothing else. -/
theorem objLookup_getCached (store : List (String × AvailabilityEntry))
    (hashes : List String) (h : String) :
    objLookup (getCachedAvailabilityResults store hashes) h =
      if h ∈ hashes then objLookup store h else none := by
  induction hashes with
  | nil => simp [getCachedAvailabilityResults, objLookup]
  | cons x xs ih =>
    rw [getCachedAvailabilityResults, List.filterMap_cons]
    have hrest : List.filterMap (fun h2 => Option.map (fun e => (h2, e)) (objLookup store h2)) xs
        = getCachedAvailabilityResults store xs := rfl
    cases hx : objLookup store x with
    | none =>
      simp only [hx, Option.map_none', hrest, ih]
      by_cases hhx : h = x
      · subst hhx
        simp [hx]
      · simp [hhx]
    | some e =>
      simp only [hx, Option.map_some', hrest]
      by_cases hhx : h = x
      · subst hhx
        simp [objLookup, hx]
      · have hxh : ¬x = h := fun hh => hhx hh.symm
        simp only [objLookup, if_neg hxh, ih]
        simp [hhx]

/-- Every batch produced by the chunking helper draws its elements from the
chunked list. -/
theorem chunkArray_subset {α} {items : List α} {size : Nat} {c : List α}
    (hc : c ∈ chunkArray items size) : ∀ x ∈ c, x ∈ items := by
  simp only [chunkArray, List.mem_map, List.mem_range] at hc
  obtain ⟨i, _, rfl⟩ := hc
  intro x hx
  exact List.drop_subset _ _ (List.take_subset _ _ hx)

/-- The chunking helper produces exactly the ceiling number of batches. -/
theorem chunkArray_length {α} (items : List α) (size : Nat) :
    (chunkArray items size).length = (items.length + size - 1) / size := by
  simp [chunkArray]

/-- Every batch in the trace of the batch loop is one of the given chunks. -/
theorem checkCachedLoop_trace_mem
    (remote : List String → Except JsError (Option (List (String × AvailabilityEntry))))
    (chunks : List (List String)) (m : List (String × AvailabilityEntry))
    (b : List String) (hb : b ∈ (checkCachedLoop remote chunks m).2) : b ∈ chunks := by
  induction chunks generalizing m with
  | nil => simp [checkCachedLoop] at hb
  | cons c rest ih =>
    rw [checkCachedLoop] at hb
    cases hr : (remote c).mapError rethrowAuth with
    | error e =>
      rw [hr] at hb
      simp at hb
      simp [hb]
    | ok data =>
      rw [hr] at hb
      simp only [List.mem_cons] at hb
      rcases hb with rfl | hb
      · exact List.mem_cons_self _ _
      · exact List.mem_cons_of_mem _ (ih _ hb)

/-- When every batch succeeds, the loop runs all batches in order and folds
their bodies into the accumulator. -/
theorem checkCachedLoop_ok
    (f : List String → Option (List (String × AvailabilityEntry)))
    (chunks : List (List String)) (m : List (String × AvailabilityEntry)) :
    checkCachedLoop (fun c => Except.ok (f c)) chunks m =
      (Except.ok (chunks.foldl (fun acc c => objAssign acc ((f c).getD [])) m), chunks) := by
  induction chunks generalizing m with
  | nil => simp [checkCachedLoop]
  | cons c rest ih => simp [checkCachedLoop, Except.mapError, ih]

/-- A key is bound in the folded accumulator iff it is bound in the initial
object or in the body of some folded batch. -/
theorem foldl_objAssign_lookup
    (f : List String → Option (List (String × AvailabilityEntry)))
    (chunks : List (List String)) (m : List (String × AvailabilityEntry)) (h : String) :
    (objLookup (chunks.foldl (fun acc c => objAssign acc ((f c).getD [])) m) h).isSome = true ↔
      ((objLookup m h).isSome = true ∨
        ∃ c ∈ chunks, (objLookup ((f c).getD []) h).isSome = true) := by
  induction chunks generalizing m with
  | nil => simp
  | cons c rest ih =>
    simp only [List.foldl_cons]
    rw [ih]
    simp only [objAssign, objLookup_append_isSome, List.mem_cons]
    constructor
    · rintro (⟨hc | hm⟩ | ⟨c2, hc2, hh⟩)
      · exact Or.inr ⟨c, Or.inl rfl, hc⟩
      · exact Or.inl hm
      · exact Or.inr ⟨c2, Or.inr hc2, hh⟩
    · rintro (hm | ⟨c2, (rfl | hc2), hh⟩)
      · exact Or.inl (Or.inr hm)
      · exact Or.inl (Or.inl hh)
      · exact Or.inr ⟨c2, hc2, hh⟩

/-- C5: the error classifier is a pure function of the observed HTTP response
status: status 401 or 403 raises BadToken, status 402 raises AccessDenied, and
any other error, including one carrying no status at all, is re-raised
unchanged. -/
theorem claim_C5_classifier (err : JsError) :
    ((statusOf err = some 401 ∨ statusOf err = some 403) →
      rethrowAuth err = JsError.badToken) ∧
    (statusOf err = some 402 → rethrowAuth err = JsError.accessDenied) ∧
    ((statusOf err ≠ some 401 ∧ statusOf err ≠ some 403 ∧ statusOf err ≠ some 402) →
      rethrowAuth err = err) := by
  refine ⟨fun hs => ?_, fun hs => ?_, fun hs => ?_⟩
  · rcases hs with hs | hs <;> simp [rethrowAuth, hs]
  · simp [rethrowAuth, hs]
  · simp [rethrowAuth, hs.1, hs.2.1, hs.2.2]

/-- Witness for C5 at one concrete error of each class: a 401 transport error,
a 402 transport error, and a 500 transport error. -/
theorem claim_C5_classifier_witness :
    rethrowAuth (JsError.httpError (some 401)) = JsError.badToken ∧
    rethrowAuth (JsError.httpError (some 402)) = JsError.accessDenied ∧
    rethrowAuth (JsError.httpError (some 500)) = JsError.httpError (some 500) :=
  ⟨(claim_C5_classifier _).1 (Or.inl rfl),
   (claim_C5_classifier _).2.1 rfl,
   (claim_C5_classifier _).2.2 ⟨by decide, by decide, by decide⟩⟩

/-- C4: the file-index mapper selects only among the video-type files of the
fetched record, in their native order, and an index at or beyond the count of
video files fails with the out-of-range NotFound error instead of reading the
raw unfiltered list. -/
theorem claim_C4_mapIndex (remote : Remote) (torrentId index : Nat)
    (torrent : RemoteTorrent)
    (hlist : myListOne remote torrentId = Except.ok torrent) :
    ((h : index < (torrent.files.filter (fun f => isVideo f.name)).length) →
      getFileIdForIndex remote torrentId index =
        Except.ok
          (match ((torrent.files.filter (fun f => isVideo f.name)).get ⟨index, h⟩).id with
           | some fid => fid
           | none => index + 1)) ∧
    ((torrent.files.filter (fun f => isVideo f.name)).length ≤ index →
      getFileIdForIndex remote torrentId index =
        Except.error (JsError.jsErr "File index out of range")) := by
  constructor
  · intro h
    rw [getFileIdForIndex, hlist]
    simp only [List.getElem?_eq_getElem h, List.get_eq_getElem]
    cases ((torrent.files.filter (fun f => isVideo f.name))[index]).id <;> simp
  · intro h
    rw [getFileIdForIndex, hlist]
    simp only [List.getElem?_eq_none h]

/-- Witness for C4 at a concrete record with one video file: index 0 succeeds
with the remote file id and index 1 fails with the out-of-range error. -/
theorem claim_C4_mapIndex_witness :
    getFileIdForIndex remote401dl 42 0 = Except.ok 7 ∧
    getFileIdForIndex remote401dl 42 1 =
      Except.error (JsError.jsErr "File index out of range") :=
  ⟨(claim_C4_mapIndex remote401dl 42 0 tor1 (by decide)).1 (by decide),
   (claim_C4_mapIndex remote401dl 42 1 tor1 (by decide)).2 (by decide)⟩

/-- C8: when the selected in-range video file has no remote identifier the
mapper returns the 1-based positional identifier logicalIndex + 1; in
particular, in scenario B (one id-less video at index 0, download endpoint
yielding the link only for file id 1) resolve obtains the stubbed url, which
proves the download request used file id 1. -/
theorem claim_C8_positional_fallback :
    (∀ (remote : Remote) (torrentId index : Nat) (torrent : RemoteTorrent),
      myListOne remote torrentId = Except.ok torrent →
      ∀ h : index < (torrent.files.filter (fun f => isVideo f.name)).length,
      ((torrent.files.filter (fun f => isVideo f.name)).get ⟨index, h⟩).id = none →
      getFileIdForIndex remote torrentId index = Except.ok (index + 1)) ∧
    resolve remoteB "abc" 0 = "https://cdn/x" := by
  constructor
  · intro remote torrentId index torrent hlist h hid
    rw [getFileIdForIndex, hlist]
    simp only [List.getElem?_eq_getElem h]
    rw [show ((torrent.files.filter (fun f => isVideo f.name))[index]).id = none from hid]
  · decide

/-- Witness for C8 at the scenario-B record: the single id-less video at
index 0 maps to the positional file id 1. -/
theorem claim_C8_positional_fallback_witness :
    getFileIdForIndex remoteB 42 0 = Except.ok 1 :=
  claim_C8_positional_fallback.1 remoteB 42 0 sbTorrent (by decide) (by decide) (by decide)

/-- C9: the link requester returns the truthy download field when present,
otherwise the truthy fallback url field, and fails with the no-download-link
error exactly when neither field carries a usable value. -/
theorem claim_C9_link_extraction (remote : Remote) (torrentId fileId : Nat)
    (resp : DlResp)
    (hresp : remote.requestdl torrentId fileId = Except.ok resp) :
    (jsTruthyStr resp.download = true →
      requestDownloadLink remote torrentId fileId = Except.ok (resp.download.getD "")) ∧
    (jsTruthyStr resp.download = false → jsTruthyStr resp.url = true →
      requestDownloadLink remote torrentId fileId = Except.ok (resp.url.getD "")) ∧
    (requestDownloadLink remote torrentId fileId =
        Except.error (JsError.jsErr "No download link") ↔
      (jsTruthyStr resp.download = false ∧ jsTruthyStr resp.url = false)) := by
  refine ⟨fun hd => ?_, fun hd hu => ?_, ?_⟩
  · rw [requestDownloadLink, hresp]
    simp [hd]
  · rw [requestDownloadLink, hresp]
    simp [hd, hu]
  · rw [requestDownloadLink, hresp]
    cases hd : jsTruthyStr resp.download <;> cases hu : jsTruthyStr resp.url <;>
      simp [hd, hu]

/-- Witness for C9 at concrete responses: a url-only response yields the url,
and a response with neither field fails with the no-download-link error. -/
theorem claim_C9_link_extraction_witness :
    requestDownloadLink r9 42 1 = Except.ok "https://cdn/u" ∧
    requestDownloadLink r9 42 2 = Except.error (JsError.jsErr "No download link") :=
  ⟨(claim_C9_link_extraction r9 42 1
      { download := none, url := some "https://cdn/u" } rfl).2.1 (by decide) (by decide),
   (claim_C9_link_extraction r9 42 2
      { download := none, url := none } rfl).2.2.mpr ⟨by decide, by decide⟩⟩

/-- C10: resolve is total at its public interface: for every remote behaviour
it returns either the url produced by the pipeline or exactly one of the two
static failure codes, FAILED_ACCESS exactly for BadToken or AccessDenied
failures and FAILED_UNEXPECTED for every other failure. -/
theorem claim_C10_total_outcomes (remote : Remote) (infohash : String)
    (fileIndex : Nat) :
    FAILED_ACCESS ≠ FAILED_UNEXPECTED ∧
    ((∃ url, resolveSteps remote infohash fileIndex = Except.ok url ∧
        resolve remote infohash fileIndex = url) ∨
     ((resolveSteps remote infohash fileIndex = Except.error JsError.badToken ∨
       resolveSteps remote infohash fileIndex = Except.error JsError.accessDenied) ∧
       resolve remote infohash fileIndex = FAILED_ACCESS) ∨
     ((∃ e, resolveSteps remote infohash fileIndex = Except.error e ∧
        e ≠ JsError.badToken ∧ e ≠ JsError.accessDenied) ∧
       resolve remote infohash fileIndex = FAILED_UNEXPECTED)) := by
  refine ⟨by decide, ?_⟩
  cases hr : resolveSteps remote infohash fileIndex with
  | ok url => exact Or.inl ⟨url, rfl, by simp [resolve, hr]⟩
  | error e =>
    cases e with
    | badToken => exact Or.inr (Or.inl ⟨Or.inl rfl, by simp [resolve, hr]⟩)
    | accessDenied => exact Or.inr (Or.inl ⟨Or.inr rfl, by simp [resolve, hr]⟩)
    | jsErr m =>
      exact Or.inr (Or.inr ⟨⟨JsError.jsErr m, rfl, by simp, by simp⟩, by simp [resolve, hr]⟩)
    | httpError s =>
      exact Or.inr (Or.inr ⟨⟨JsError.httpError s, rfl, by simp, by simp⟩, by simp [resolve, hr]⟩)

/-- C3: the registrar tolerates duplicate-class create failures (400 or 409)
and reconciles against the account list, returns a carried create identifier
directly, fails with the not-found error when the fallback search matches
nothing, and is idempotent: a repeat call against a remote that reports the
duplicate and lists the registered torrent returns the same identifier. -/
theorem claim_C3_registrar (r1 r2 : Remote) (infohash magnet : String) :
    (∀ e l t, r1.createtorrent magnet = Except.error e →
      (statusOf e = some 400 ∨ statusOf e = some 409) →
      myListAll r1 = Except.ok l →
      l.find? (fun t2 => strToLower t2.hash == strToLower infohash) = some t →
      createOrFindTorrent r1 infohash magnet = Except.ok t.id) ∧
    (∀ r i, r1.createtorrent magnet = Except.ok r → r.id = some i → i ≠ 0 →
      createOrFindTorrent r1 infohash magnet = Except.ok i) ∧
    (∀ l, createGaveNoId r1 magnet → myListAll r1 = Except.ok l →
      l.find? (fun t2 => strToLower t2.hash == strToLower infohash) = none →
      createOrFindTorrent r1 infohash magnet =
        Except.error (JsError.jsErr "Torrent not found/created")) ∧
    (∀ i e l t, createOrFindTorrent r1 infohash magnet = Except.ok i →
      r2.createtorrent magnet = Except.error e →
      (statusOf e = some 400 ∨ statusOf e = some 409) →
      myListAll r2 = Except.ok l →
      l.find? (fun t2 => strToLower t2.hash == strToLower infohash) = some t →
      t.id = i →
      createOrFindTorrent r2 infohash magnet = Except.ok i) := by
  refine ⟨fun e l t hc hs hl hf => ?_, fun r i hc hid hi => ?_,
    fun l hno hl hf => ?_, fun i e l t _ hc hs hl hf ht => ?_⟩
  · simp only [createOrFindTorrent, hc, if_pos hs, createFallback, hl, hf]
  · simp only [createOrFindTorrent, hc, hid]
    simp [hi]
  · rcases hno with ⟨e, hc, hs⟩ | ⟨r, hc, hr⟩
    · simp only [createOrFindTorrent, hc, if_pos hs, createFallback, hl, hf]
    · simp only [createOrFindTorrent, hc]
      cases hid : r.id with
      | none => simp only [createFallback, hl, hf]
      | some i =>
        have hi : i = 0 := by
          rw [hid] at hr
          simpa [jsTruthyNat] using hr
        subst hi
        simp only [bne_self_eq_false, Bool.false_eq_true, if_false, createFallback, hl, hf]
  · simp only [createOrFindTorrent, hc, if_pos hs, createFallback, hl, hf, ht]

/-- Witness for C3 at scenario C: the first call creates with id 42, the
repeat call sees a 409 and resolves the same id 42 through the list search,
matching the upper-case listed hash case-insensitively. -/
theorem claim_C3_registrar_witness :
    createOrFindTorrent r3a "abc" (getMagnetLink "abc") = Except.ok 42 ∧
    createOrFindTorrent r3b "abc" (getMagnetLink "abc") = Except.ok 42 :=
  ⟨(claim_C3_registrar r3a r3b "abc" (getMagnetLink "abc")).2.1
      { id := some 42 } 42 rfl rfl (by decide),
   (claim_C3_registrar r3a r3b "abc" (getMagnetLink "abc")).2.2.2
      42 (JsError.httpError (some 409)) [t42ABC] t42ABC
      ((claim_C3_registrar r3a r3b "abc" (getMagnetLink "abc")).2.1
        { id := some 42 } 42 rfl rfl (by decide))
      rfl (Or.inr rfl) (by decide) (by decide) rfl⟩

/-- C1 counterexample: with a remote whose create and list endpoints succeed
but whose requestdl endpoint answers HTTP status 401, resolve returns the
unexpected-failure code, not the access-failed code, because the source does
not route the download call through the classifier. -/
theorem claim_C1_counterexample :
    remote401dl.requestdl 42 7 = Except.error (JsError.httpError (some 401)) ∧
    resolve remote401dl "abc" 0 = FAILED_UNEXPECTED ∧
    resolve remote401dl "abc" 0 ≠ FAILED_ACCESS :=
  ⟨rfl, by decide, by decide⟩

/-- C1 amended: a 401 on the create-torrent call or on either list-torrents
call maps resolve to the access-failed code, while a 401 on the
request-download-link call, which the source issues without the classifying
catch, maps resolve to the unexpected-failure code. -/
theorem claim_C1_amended (remote : Remote) (infohash : String) (fileIndex : Nat) :
    (∀ e, remote.createtorrent (getMagnetLink infohash) = Except.error e →
      statusOf e = some 401 →
      resolve remote infohash fileIndex = FAILED_ACCESS) ∧
    (∀ e e2, remote.createtorrent (getMagnetLink infohash) = Except.error e →
      (statusOf e = some 400 ∨ statusOf e = some 409) →
      remote.mylistAll = Except.error e2 → statusOf e2 = some 401 →
      resolve remote infohash fileIndex = FAILED_ACCESS) ∧
    (∀ i r e, remote.createtorrent (getMagnetLink infohash) = Except.ok r →
      r.id = some i → i ≠ 0 →
      remote.mylistOne i = Except.error e → statusOf e = some 401 →
      resolve remote infohash fileIndex = FAILED_ACCESS) ∧
    (∀ i r fid, remote.createtorrent (getMagnetLink infohash) = Except.ok r →
      r.id = some i → i ≠ 0 →
      getFileIdForIndex remote i fileIndex = Except.ok fid →
      remote.requestdl i fid = Except.error (JsError.httpError (some 401)) →
      resolve remote infohash fileIndex = FAILED_UNEXPECTED) := by
  refine ⟨fun e hc hs => ?_, fun e e2 hc hs hl hs2 => ?_,
    fun i r e hc hid hi hl hs => ?_, fun i r fid hc hid hi hfid hdl => ?_⟩
  · have hbad : rethrowAuth e = JsError.badToken := by
      simp [rethrowAuth, hs]
    have h40 : ¬(statusOf e = some 400 ∨ statusOf e = some 409) := by
      simp [hs]
    simp only [resolve, resolveSteps, createOrFindTorrent, hc, if_neg h40, hbad]
  · have hbad : rethrowAuth e2 = JsError.badToken := by
      simp [rethrowAuth, hs2]
    simp only [resolve, resolveSteps, createOrFindTorrent, hc, if_pos hs, createFallback,
      myListAll, hl, Except.mapError, Except.map, hbad]
  · have hbad : rethrowAuth e = JsError.badToken := by
      simp [rethrowAuth, hs]
    have hbne : (i != 0) = true := by
      simpa using hi
    simp only [resolve, resolveSteps, createOrFindTorrent, hc, hid, hbne, if_true,
      getFileIdForIndex, myListOne, hl, Except.mapError, Except.map, hbad]
  · have hbne : (i != 0) = true := by
      simpa using hi
    simp only [resolve, resolveSteps, createOrFindTorrent, hc, hid, hbne, if_true,
      hfid, requestDownloadLink, hdl]

/-- Witness for C1 amended: one concrete remote per endpoint answering 401 —
the first three resolve to the access-failed code, the download one to the
unexpected-failure code. -/
theorem claim_C1_amended_witness :
    resolve rC1a "abc" 0 = FAILED_ACCESS ∧
    resolve rC1b "abc" 0 = FAILED_ACCESS ∧
    resolve rC1c "abc" 0 = FAILED_ACCESS ∧
    resolve remote401dl "abc" 0 = FAILED_UNEXPECTED :=
  ⟨(claim_C1_amended rC1a "abc" 0).1 (JsError.httpError (some 401)) rfl rfl,
   (claim_C1_amended rC1b "abc" 0).2.1 (JsError.httpError (some 409))
      (JsError.httpError (some 401)) rfl (Or.inr rfl) rfl rfl,
   (claim_C1_amended rC1c "abc" 0).2.2.1 42 { id := some 42 }
      (JsError.httpError (some 401)) rfl rfl (by decide) rfl rfl,
   (claim_C1_amended remote401dl "abc" 0).2.2.2 42 { id := some 42 } 7
      rfl rfl (by decide) (by decide) rfl⟩

/-- C6: the availability checker never places a hash that the local cache
already holds (with a non-empty file list) into any issued remote batch, and
when every queried hash is cached it returns the cached partial mapping
unchanged with an empty remote-call trace. -/
theorem claim_C6_cache_short_circuit
    (remote : List String → Except JsError (Option (List (String × AvailabilityEntry))))
    (store : List (String × AvailabilityEntry)) (hashes : List String) (size : Nat) :
    (∀ h e, objLookup store h = some e → e.files ≠ [] →
      ∀ batch ∈ (checkCached remote store hashes size).2, h ∉ batch) ∧
    ((∀ h2 ∈ hashes, (objLookup store h2).isSome = true) →
      checkCached remote store hashes size =
        (Except.ok (getCachedAvailabilityResults store hashes), [])) := by
  constructor
  · intro h e hstore _ batch hbatch hmem
    by_cases hm : (missingOf store hashes).isEmpty
    · simp only [checkCached, hm, if_true] at hbatch
      simp at hbatch
    · simp only [checkCached, hm, Bool.false_eq_true, if_false] at hbatch
      rcases hcl : checkCachedLoop remote (chunkArray (missingOf store hashes) size) []
        with ⟨res, trace⟩
      rw [hcl] at hbatch
      have hbc : batch ∈ chunkArray (missingOf store hashes) size := by
        have hmemtr := checkCachedLoop_trace_mem remote
          (chunkArray (missingOf store hashes) size) [] batch
        rw [hcl] at hmemtr
        apply hmemtr
        cases res with
        | ok m => simpa using hbatch
        | error e2 => simpa using hbatch
      have hmm : h ∈ missingOf store hashes := chunkArray_subset hbc h hmem
      rw [missingOf, List.mem_filter] at hmm
      rcases hmm with ⟨hin, hnone⟩
      rw [objLookup_getCached, if_pos hin, hstore] at hnone
      simp at hnone
  · intro hall
    have hmiss : missingOf store hashes = [] := by
      rw [missingOf]
      refine List.filter_eq_nil_iff.mpr (fun a ha => ?_)
      rw [objLookup_getCached, if_pos ha]
      have hsome := hall a ha
      cases hs : objLookup store a with
      | none => rw [hs] at hsome; simp at hsome
      | some v => simp
    simp only [checkCached, hmiss, List.isEmpty_nil, if_true]

/-- Witness for C6: with a store caching hash a, batching hashes a and b puts
only b into the single issued batch, and querying a alone issues no remote
call and returns the cached mapping. -/
theorem claim_C6_cache_short_circuit_witness :
    "a" ∉ (["b"] : List String) ∧
    checkCached (fun _ => Except.ok (some [])) store6 ["a"] 100 =
      (Except.ok (getCachedAvailabilityResults store6 ["a"]), []) :=
  ⟨(claim_C6_cache_short_circuit (fun _ => Except.ok (some [])) store6 ["a", "b"] 100).1
      "a" { files := [{ id := none, name := "movie.mkv" }] } rfl (by decide)
      ["b"] (by decide),
   (claim_C6_cache_short_circuit (fun _ => Except.ok (some [])) store6 ["a"] 100).2
      (by decide)⟩

/-- C7: when the cache-missing subset exceeds the batch size and every batch
succeeds, the checker issues exactly the chunked batches, in order, and their
number is the ceiling of the missing count divided by the batch size. -/
theorem claim_C7_batch_count
    (f : List String → Option (List (String × AvailabilityEntry)))
    (store : List (String × AvailabilityEntry)) (hashes : List String) (size : Nat)
    (_hsize : 0 < size) (hbig : size < (missingOf store hashes).length) :
    (checkCached (fun c => Except.ok (f c)) store hashes size).2 =
      chunkArray (missingOf store hashes) size ∧
    ((checkCached (fun c => Except.ok (f c)) store hashes size).2).length =
      ((missingOf store hashes).length + size - 1) / size := by
  have hne : (missingOf store hashes).isEmpty = false := by
    cases hmo : missingOf store hashes with
    | nil => rw [hmo] at hbig; simp at hbig
    | cons a l => simp
  have htr : (checkCached (fun c => Except.ok (f c)) store hashes size).2 =
      chunkArray (missingOf store hashes) size := by
    simp only [checkCached, missingOf] at hne ⊢
    simp only [hne, Bool.false_eq_true, if_false, checkCachedLoop_ok]
  exact ⟨htr, by rw [htr, chunkArray_length]⟩

/-- Witness for C7: three missing hashes with batch size two produce the two
chunked batches and the ceiling count. -/
theorem claim_C7_batch_count_witness :
    (checkCached (fun _ => Except.ok (some []))
        ([] : List (String × AvailabilityEntry)) ["a", "b", "c"] 2).2 =
      chunkArray (missingOf ([] : List (String × AvailabilityEntry)) ["a", "b", "c"]) 2 ∧
    ((checkCached (fun _ => Except.ok (some []))
        ([] : List (String × AvailabilityEntry)) ["a", "b", "c"] 2).2).length =
      ((missingOf ([] : List (String × AvailabilityEntry)) ["a", "b", "c"]).length + 2 - 1) / 2 :=
  claim_C7_batch_count (fun _ => some []) [] ["a", "b", "c"] 2 (by decide) (by decide)

/-- C2 counterexample: the hash a is queried and missing from the cache, the
single batch completes with an empty remote body, yet the returned merged
mapping carries no entry at all for a: no empty or uncached entry is
defaulted for hashes the remote did not return. -/
theorem claim_C2_counterexample :
    "a" ∈ missingOf ([] : List (String × AvailabilityEntry)) ["a"] ∧
    (checkCached (fun _ => Except.ok (some []))
        ([] : List (String × AvailabilityEntry)) ["a"] 100).1 =
      Except.ok ([] : List (String × AvailabilityEntry)) ∧
    objLookup ([] : List (String × AvailabilityEntry)) "a" = none :=
  ⟨by decide, by decide, rfl⟩

/-- C2 amended: after all batches succeed, the accumulator holds entries for
exactly the hashes the remote returned in some batch body, with no defaulted
entries for omitted hashes, and the caller receives the accumulator written
through the cache merge, covering the cache-known hashes and the
remote-returned hashes. -/
theorem claim_C2_amended
    (f : List String → Option (List (String × AvailabilityEntry)))
    (store : List (String × AvailabilityEntry)) (hashes : List String) (size : Nat)
    (hne : (missingOf store hashes).isEmpty = false) :
    checkCached (fun c => Except.ok (f c)) store hashes size =
      (Except.ok (cacheAvailabilityResults store
          (accOf f (chunkArray (missingOf store hashes) size))),
        chunkArray (missingOf store hashes) size) ∧
    (∀ h, (objLookup (accOf f (chunkArray (missingOf store hashes) size)) h).isSome = true ↔
      ∃ c ∈ chunkArray (missingOf store hashes) size,
        (objLookup ((f c).getD []) h).isSome = true) ∧
    (∀ h, (objLookup (cacheAvailabilityResults store
          (accOf f (chunkArray (missingOf store hashes) size))) h).isSome = true ↔
      ((objLookup store h).isSome = true ∨
        (objLookup (accOf f (chunkArray (missingOf store hashes) size)) h).isSome = true)) := by
  refine ⟨?_, fun h => ?_, fun h => ?_⟩
  · simp only [checkCached, missingOf] at hne ⊢
    simp only [hne, Bool.false_eq_true, if_false, checkCachedLoop_ok, accOf, missingOf]
  · rw [accOf, foldl_objAssign_lookup]
    simp [objLookup]
  · rw [cacheAvailabilityResults, objLookup_append_isSome]

/-- Witness for C2 amended: a single missing hash whose batch the remote
answers with an entry for a; the checker returns the merged mapping and the
chunk trace. -/
theorem claim_C2_amended_witness :
    checkCached (fun _ => Except.ok (some [("a", AvailabilityEntry.mk [])]))
        ([] : List (String × AvailabilityEntry)) ["a"] 100 =
      (Except.ok (cacheAvailabilityResults []
          (accOf (fun _ => some [("a", AvailabilityEntry.mk [])])
            (chunkArray (missingOf ([] : List (String × AvailabilityEntry)) ["a"]) 100))),
        chunkArray (missingOf ([] : List (String × AvailabilityEntry)) ["a"]) 100) :=
  (claim_C2_amended (fun _ => some [("a", AvailabilityEntry.mk [])]) [] ["a"] 100
    (by decide)).1

end Torbox
